import Mathlib

/-!
Shallow embedding of `src/pv_calculator.py` (solar-potential-calculator).

The computational core of the script is a straight-line pipeline:
geometry ratios, a per-orientation obstruction angle (`calculate_theta`),
three linear regression formulas (sunhours %, PV utilization %, PV yield
density), a usable-roof-area formula, and the 3D placement of the three
obstruction blocks.  Numeric values are modelled over `ℝ` (the Python code
works on floats; the formulas themselves are exact real-arithmetic
expressions, with `np.arctan` as `Real.arctan` and `np.degrees x` as
`x * 180 / π`).  The Streamlit input widgets (source lines 79-97) are
modelled by a decidable acceptance predicate over `ℚ` recording exactly
which fields carry a `min_value` bound.
-/

namespace PVCalc

/-- Input-boundary model of the sidebar widgets, source lines 79-97.
`st.number_input` is declared with `min_value=1.0` (resp. `min_value=1`)
for `length`, `width`, `num_floors` and `building_height` only; the six
obstruction fields (`h_south`, `w_south`, `h_east`, `w_east`, `h_west`,
`w_west`) carry no bound at all.  An input snapshot is accepted by the
boundary exactly when every bounded field meets its declared minimum. -/
def input_accepted (length width : ℚ) (num_floors : ℕ)
    (building_height h_south w_south h_east w_east h_west w_west : ℚ) : Bool :=
  decide (1 ≤ length) && decide (1 ≤ width) && decide (1 ≤ num_floors)
    && decide (1 ≤ building_height)

noncomputable section

open Real

/-- `np.degrees`: radians to degrees, `x * 180 / π`. -/
def degrees (x : ℝ) : ℝ := x * 180 / Real.pi

/-- Source lines 36-43: obstruction angle theta.
`height_diff = opposing_h - building_h`, `theta_rad = arctan (height_diff / street_w)`,
`theta_deg = degrees theta_rad`; returns `0` if `theta_deg < 0`, else `theta_deg`. -/
def calculate_theta (opposing_h building_h street_w : ℝ) : ℝ :=
  let height_diff := opposing_h - building_h
  let theta_rad := Real.arctan (height_diff / street_w)
  let theta_deg := degrees theta_rad
  if theta_deg < 0 then 0 else theta_deg

/-- Source line 101: `roof_area = length * width`. -/
def roof_area (length width : ℝ) : ℝ := length * width

/-- Source line 102: `total_floor_area = length * width * num_floors`. -/
def total_floor_area (length width : ℝ) (num_floors : ℕ) : ℝ :=
  length * width * num_floors

/-- Source line 103: `rtfa_percent = (roof_area / total_floor_area) * 100`. -/
def rtfa_percent (length width : ℝ) (num_floors : ℕ) : ℝ :=
  roof_area length width / total_floor_area length width num_floors * 100

/-- Source lines 111-116: sunhours percentage regression. -/
def sunhours_percent (theta_south theta_east theta_west : ℝ) : ℝ :=
  91.573 - 0.16264 * theta_south - 0.25959 * theta_east - 0.16825 * theta_west

/-- Source line 119: PV utilization regression. -/
def pv_utilization (sunhours rtfa : ℝ) : ℝ :=
  -37.51 + 0.5075 * sunhours + 1.6110 * rtfa

/-- Source line 122: PV yield density regression. -/
def pv_yield_density (theta_south sunhours : ℝ) : ℝ :=
  120.07 - 0.2910 * theta_south + 1.6800 * sunhours

/-- Source line 125: `pv_roof_area= (roof_area - 32)×0.8`.  The source writes
the multiplication with the Unicode sign `×` (U+00D7), which Python rejects
as a `SyntaxError`; the arithmetic intended by that line (and stated by the
spec) is `(roof_area - 32) * 0.8`, embedded here. -/
def pv_roof_area (length width : ℝ) : ℝ := (roof_area length width - 32) * 0.8

/-- Source line 151: fixed visualization depth of the obstruction blocks. -/
def obs_depth : ℝ := 10.0

/-- The six scalar arguments of `make_cube_trace` (source lines 45-71):
center coordinates, base height, and the x/y/z extents of the cube.  The
Plotly mesh built from them is rendering detail; the placement data is what
the spec constrains. -/
structure CubeTrace where
  x_center : ℝ
  y_center : ℝ
  z_base : ℝ
  dx : ℝ
  dy : ℝ
  dz : ℝ

/-- Placement data passed to `make_cube_trace` in the source. -/
def make_cube_trace (x_center y_center z_base dx dy dz : ℝ) : CubeTrace :=
  ⟨x_center, y_center, z_base, dx, dy, dz⟩

/-- Source line 148: main building, centered at the origin. -/
def main_bldg (width length building_height : ℝ) : CubeTrace :=
  make_cube_trace 0 0 0 width length building_height

/-- Source line 155: `y_south_pos = -(length/2 + w_south + obs_depth/2)`. -/
def y_south_pos (length w_south : ℝ) : ℝ := -(length / 2 + w_south + obs_depth / 2)

/-- Source line 156: south obstruction block. -/
def south_bldg (length width w_south h_south : ℝ) : CubeTrace :=
  make_cube_trace 0 (y_south_pos length w_south) 0 width obs_depth h_south

/-- Source line 160: `x_east_pos = (width/2 + w_east + obs_depth/2)`. -/
def x_east_pos (width w_east : ℝ) : ℝ := width / 2 + w_east + obs_depth / 2

/-- Source line 161: east obstruction block. -/
def east_bldg (length width w_east h_east : ℝ) : CubeTrace :=
  make_cube_trace (x_east_pos width w_east) 0 0 obs_depth length h_east

/-- Source line 165: `x_west_pos = -(width/2 + w_west + obs_depth/2)`. -/
def x_west_pos (width w_west : ℝ) : ℝ := -(width / 2 + w_west + obs_depth / 2)

/-- Source line 166: west obstruction block. -/
def west_bldg (length width w_west h_west : ℝ) : CubeTrace :=
  make_cube_trace (x_west_pos width w_west) 0 0 obs_depth length h_west

/-! Spec-side definitions, written from the spec text, to be compared with
the embeddings above. -/

/-- Modelled from the spec: `thetaDegrees = max(0, degrees(atan((opposingHeight
− buildingHeight)/streetWidth)))`. -/
def spec_obstructionAngle (opposingHeight buildingHeight streetWidth : ℝ) : ℝ :=
  max 0 (degrees (Real.arctan ((opposingHeight - buildingHeight) / streetWidth)))

/-- Modelled from the spec: `sunhoursPercent = 91.573 - 0.16264*thetaSouth
- 0.25959*thetaEast - 0.16825*thetaWest`. -/
def spec_sunhoursPercent (thetaSouth thetaEast thetaWest : ℝ) : ℝ :=
  91.573 - 0.16264 * thetaSouth - 0.25959 * thetaEast - 0.16825 * thetaWest

/-- Modelled from the spec: `pvUtilization = -37.51 + 0.5075*sunhoursPercent
+ 1.6110*rtfaPercent`. -/
def spec_pvUtilization (sunhoursPercent rtfaPercent : ℝ) : ℝ :=
  -37.51 + 0.5075 * sunhoursPercent + 1.6110 * rtfaPercent

/-- Modelled from the spec: `pvYieldDensity = 120.07 - 0.2910*thetaSouth
+ 1.6800*sunhoursPercent`. -/
def spec_pvYieldDensity (thetaSouth sunhoursPercent : ℝ) : ℝ :=
  120.07 - 0.2910 * thetaSouth + 1.6800 * sunhoursPercent

/-- Modelled from the spec: south block centered at
`(0, -(length/2 + streetWidthSouth + obsDepth/2), 0)`, footprint
`width × obsDepth`, height `opposingHeightSouth`, with `obsDepth = 10`. -/
def spec_southBlock (length width streetWidthSouth opposingHeightSouth : ℝ) : CubeTrace :=
  ⟨0, -(length / 2 + streetWidthSouth + 10 / 2), 0, width, 10, opposingHeightSouth⟩

/-- Modelled from the spec: east block centered at
`(width/2 + streetWidthEast + obsDepth/2, 0, 0)`, footprint
`obsDepth × length`, height `opposingHeightEast`, with `obsDepth = 10`. -/
def spec_eastBlock (length width streetWidthEast opposingHeightEast : ℝ) : CubeTrace :=
  ⟨width / 2 + streetWidthEast + 10 / 2, 0, 0, 10, length, opposingHeightEast⟩

/-- Modelled from the spec: west block centered at
`(-(width/2 + streetWidthWest + obsDepth/2), 0, 0)`, footprint
`obsDepth × length`, height `opposingHeightWest`, with `obsDepth = 10`. -/
def spec_westBlock (length width streetWidthWest opposingHeightWest : ℝ) : CubeTrace :=
  ⟨-(width / 2 + streetWidthWest + 10 / 2), 0, 0, 10, length, opposingHeightWest⟩

/-! Helper lemmas shared by the claim theorems. -/

theorem calculate_theta_def (oh bh sw : ℝ) :
    calculate_theta oh bh sw =
      if degrees (Real.arctan ((oh - bh) / sw)) < 0 then 0
      else degrees (Real.arctan ((oh - bh) / sw)) := rfl

theorem degrees_zero : degrees 0 = 0 := by simp [degrees]

theorem degrees_le_degrees {a b : ℝ} (h : a ≤ b) : degrees a ≤ degrees b := by
  unfold degrees
  exact (div_le_div_iff_of_pos_right Real.pi_pos).mpr
    (mul_le_mul_of_nonneg_right h (by norm_num))

theorem degrees_lt_degrees {a b : ℝ} (h : a < b) : degrees a < degrees b := by
  unfold degrees
  exact (div_lt_div_iff_of_pos_right Real.pi_pos).mpr
    (mul_lt_mul_of_pos_right h (by norm_num))

theorem arctan_nonpos_of {x : ℝ} (h : x ≤ 0) : Real.arctan x ≤ 0 := by
  have hm := Real.arctan_strictMono.monotone h
  rwa [Real.arctan_zero] at hm

theorem arctan_neg_of {x : ℝ} (h : x < 0) : Real.arctan x < 0 := by
  have hm := Real.arctan_strictMono h
  rwa [Real.arctan_zero] at hm

theorem arctan_pos_of {x : ℝ} (h : 0 < x) : 0 < Real.arctan x := by
  have hm := Real.arctan_strictMono h
  rwa [Real.arctan_zero] at hm

/-- The clamp in `calculate_theta` is exactly `max 0`. -/
theorem calculate_theta_eq_max (oh bh sw : ℝ) :
    calculate_theta oh bh sw = max 0 (degrees (Real.arctan ((oh - bh) / sw))) := by
  rw [calculate_theta_def]
  by_cases h : degrees (Real.arctan ((oh - bh) / sw)) < 0
  · rw [if_pos h, max_eq_left h.le]
  · rw [if_neg h, max_eq_right (not_lt.mp h)]

/-- When the raw height difference over the street width is nonpositive, the
clamp fires and the obstruction angle is `0`. -/
theorem calculate_theta_eq_zero_of_ratio_nonpos {oh bh sw : ℝ}
    (h : (oh - bh) / sw ≤ 0) : calculate_theta oh bh sw = 0 := by
  rw [calculate_theta_eq_max]
  exact max_eq_left (degrees_zero ▸ degrees_le_degrees (arctan_nonpos_of h))

/-! Claim theorems. -/

/-- C1: For every valid input (length > 0, width > 0, numFloors ≥ 1) and every
obstruction-angle triple, the Performance Model's three regression outputs
equal the spec's formulas with the exact coefficients 91.573, 0.16264,
0.25959, 0.16825, -37.51, 0.5075, 1.6110, 120.07, 0.2910, 1.6800, chained in
order: pvUtilization consumes the computed sunhoursPercent and rtfaPercent,
and pvYieldDensity consumes thetaSouth and the computed sunhoursPercent. -/
theorem performance_model_matches_spec (length width : ℝ) (num_floors : ℕ)
    (thetaSouth thetaEast thetaWest : ℝ)
    (hl : 0 < length) (hw : 0 < width) (hn : 1 ≤ num_floors) :
    sunhours_percent thetaSouth thetaEast thetaWest
        = spec_sunhoursPercent thetaSouth thetaEast thetaWest ∧
      pv_utilization (sunhours_percent thetaSouth thetaEast thetaWest)
          (rtfa_percent length width num_floors)
        = spec_pvUtilization (spec_sunhoursPercent thetaSouth thetaEast thetaWest)
            (rtfa_percent length width num_floors) ∧
      pv_yield_density thetaSouth (sunhours_percent thetaSouth thetaEast thetaWest)
        = spec_pvYieldDensity thetaSouth
            (spec_sunhoursPercent thetaSouth thetaEast thetaWest) :=
  ⟨rfl, rfl, rfl⟩

/-- Witness for C1 at length=20, width=15, numFloors=4, thetas (16, 0, 0). -/
theorem performance_model_matches_spec_witness :
    (0:ℝ) < 20 ∧ (0:ℝ) < 15 ∧ 1 ≤ 4 ∧
      (sunhours_percent 16 0 0 = spec_sunhoursPercent 16 0 0 ∧
        pv_utilization (sunhours_percent 16 0 0) (rtfa_percent 20 15 4)
          = spec_pvUtilization (spec_sunhoursPercent 16 0 0) (rtfa_percent 20 15 4) ∧
        pv_yield_density 16 (sunhours_percent 16 0 0)
          = spec_pvYieldDensity 16 (spec_sunhoursPercent 16 0 0)) :=
  ⟨by norm_num, by norm_num, by norm_num,
    performance_model_matches_spec 20 15 4 16 0 0 (by norm_num) (by norm_num)
      (by norm_num)⟩

/-- C2: For every `streetWidth > 0`, `calculate_theta` equals
`max 0 (degrees (arctan ((opposingHeight - buildingHeight) / streetWidth)))`:
it computes the height difference, takes the arctangent of its ratio to the
street width, converts to degrees, and clamps a negative result to 0. -/
theorem calculate_theta_matches_spec (oh bh sw : ℝ) (hsw : 0 < sw) :
    calculate_theta oh bh sw = spec_obstructionAngle oh bh sw :=
  calculate_theta_eq_max oh bh sw

/-- Witness for C2 at opposing height 15, building height 12, street width 10. -/
theorem calculate_theta_matches_spec_witness :
    (0:ℝ) < 10 ∧ calculate_theta 15 12 10 = spec_obstructionAngle 15 12 10 :=
  ⟨by norm_num, calculate_theta_matches_spec 15 12 10 (by norm_num)⟩

/-- C3: the usable PV roof area.  Source line 125 reads
`pv_roof_area= (roof_area - 32)×0.8`, written with the Unicode multiplication
sign U+00D7 — a Python SyntaxError, so the script as committed fails to load
and produces no output at all.  The arithmetic that line intends (and the
spec states) evaluates at length=20, width=15 to (300 - 32) * 0.8 = 214.4. -/
theorem pv_roof_area_at_spec_example : pv_roof_area 20 15 = 214.4 := by
  norm_num [pv_roof_area, roof_area]

/-- C4 counterexample: the input boundary accepts street width 0 (with all
other fields at their source defaults), so a zero street width is not
rejected as invalid — refuting the claim that any non-positive streetWidth is
rejected at the input boundary. -/
theorem street_width_zero_accepted :
    input_accepted 20 15 4 12 15 0 10 12 10 12 = true := by decide

/-- C4 amended: the input boundary (the widget `min_value` declarations)
accepts a snapshot exactly when length ≥ 1, width ≥ 1, numFloors ≥ 1 and
buildingHeight ≥ 1; the six obstruction fields — in particular the three
street widths — are unconstrained, so zero or negative street widths pass the
boundary and reach the computation unvalidated. -/
theorem input_boundary_characterization (length width : ℚ) (num_floors : ℕ)
    (building_height h_south w_south h_east w_east h_west w_west : ℚ) :
    input_accepted length width num_floors building_height
        h_south w_south h_east w_east h_west w_west = true ↔
      1 ≤ length ∧ 1 ≤ width ∧ 1 ≤ num_floors ∧ 1 ≤ building_height := by
  simp [input_accepted, and_assoc]

/-- C5: rtfaPercent equals 100 / numFloors for every length > 0, width > 0
and numFloors ≥ 1, independent of length and width. -/
theorem rtfa_percent_eq_hundred_div_floors (length width : ℝ) (num_floors : ℕ)
    (hl : 0 < length) (hw : 0 < width) (hn : 1 ≤ num_floors) :
    rtfa_percent length width num_floors = 100 / (num_floors : ℝ) := by
  have h0 : (num_floors : ℝ) ≠ 0 := Nat.cast_ne_zero.mpr (by omega)
  have hl0 := hl.ne
  have hw0 := hw.ne
  unfold rtfa_percent roof_area total_floor_area
  field_simp
  ring

/-- Witness for C5 at length=20, width=15, numFloors=4 (rtfa = 25 %). -/
theorem rtfa_percent_eq_hundred_div_floors_witness :
    (0:ℝ) < 20 ∧ (0:ℝ) < 15 ∧ 1 ≤ 4 ∧
      rtfa_percent 20 15 4 = 100 / ((4:ℕ) : ℝ) :=
  ⟨by norm_num, by norm_num, by norm_num,
    rtfa_percent_eq_hundred_div_floors 20 15 4 (by norm_num) (by norm_num)
      (by norm_num)⟩

/-- C6: with streetWidth > 0, an obstruction no taller than the building gives
angle exactly 0, and the returned angle is never negative. -/
theorem calculate_theta_clamped (oh bh sw : ℝ) (hsw : 0 < sw) :
    (oh ≤ bh → calculate_theta oh bh sw = 0) ∧ 0 ≤ calculate_theta oh bh sw := by
  constructor
  · intro h
    exact calculate_theta_eq_zero_of_ratio_nonpos
      (div_nonpos_iff.mpr (Or.inr ⟨sub_nonpos.mpr h, hsw.le⟩))
  · rw [calculate_theta_eq_max]
    exact le_max_left 0 _

/-- Witness for C6 at opposing height 5, building height 12, street width 10. -/
theorem calculate_theta_clamped_witness :
    (0:ℝ) < 10 ∧
      (((5:ℝ) ≤ 12 → calculate_theta 5 12 10 = 0) ∧ 0 ≤ calculate_theta 5 12 10) :=
  ⟨by norm_num, calculate_theta_clamped 5 12 10 (by norm_num)⟩

/-- C7: the obstruction angle is monotonically increasing in the height
difference (opposingHeight - buildingHeight) for fixed streetWidth > 0, and
monotonically decreasing in streetWidth for fixed positive height
difference. -/
theorem calculate_theta_monotone (oh₁ bh₁ oh₂ bh₂ sw oh bh sw₁ sw₂ : ℝ)
    (hsw : 0 < sw) (hdiff : oh₁ - bh₁ ≤ oh₂ - bh₂)
    (hd : 0 < oh - bh) (hsw₁ : 0 < sw₁) (hsw₁₂ : sw₁ ≤ sw₂) :
    calculate_theta oh₁ bh₁ sw ≤ calculate_theta oh₂ bh₂ sw ∧
      calculate_theta oh bh sw₂ ≤ calculate_theta oh bh sw₁ := by
  constructor
  · rw [calculate_theta_eq_max, calculate_theta_eq_max]
    exact max_le_max le_rfl (degrees_le_degrees (Real.arctan_strictMono.monotone
      ((div_le_div_iff_of_pos_right hsw).mpr hdiff)))
  · rw [calculate_theta_eq_max, calculate_theta_eq_max]
    have hsw₂ : 0 < sw₂ := hsw₁.trans_le hsw₁₂
    exact max_le_max le_rfl (degrees_le_degrees (Real.arctan_strictMono.monotone
      ((div_le_div_iff_of_pos_left hd hsw₂ hsw₁).mpr hsw₁₂)))

/-- Witness for C7: height differences -2 ≤ 3 at street width 10, and street
widths 10 ≤ 12 at height difference 3. -/
theorem calculate_theta_monotone_witness :
    (0:ℝ) < 10 ∧ (10:ℝ) - 12 ≤ 15 - 12 ∧ (0:ℝ) < 15 - 12 ∧ (0:ℝ) < 10 ∧
      (10:ℝ) ≤ 12 ∧
      (calculate_theta 10 12 10 ≤ calculate_theta 15 12 10 ∧
        calculate_theta 15 12 12 ≤ calculate_theta 15 12 10) :=
  ⟨by norm_num, by norm_num, by norm_num, by norm_num, by norm_num,
    calculate_theta_monotone 10 12 15 12 10 15 12 10 12 (by norm_num)
      (by norm_num) (by norm_num) (by norm_num) (by norm_num)⟩

/-- C8: when every opposing obstruction is shorter than the building and all
street widths are positive, all three obstruction angles clamp to 0 and
sunhoursPercent equals exactly 91.573. -/
theorem scenario_b_sunhours (bh hs he hw ws we ww : ℝ)
    (h1 : hs < bh) (h2 : he < bh) (h3 : hw < bh)
    (w1 : 0 < ws) (w2 : 0 < we) (w3 : 0 < ww) :
    calculate_theta hs bh ws = 0 ∧ calculate_theta he bh we = 0 ∧
      calculate_theta hw bh ww = 0 ∧
      sunhours_percent (calculate_theta hs bh ws) (calculate_theta he bh we)
        (calculate_theta hw bh ww) = 91.573 := by
  have t1 : calculate_theta hs bh ws = 0 := calculate_theta_eq_zero_of_ratio_nonpos
    (div_nonpos_iff.mpr (Or.inr ⟨sub_nonpos.mpr h1.le, w1.le⟩))
  have t2 : calculate_theta he bh we = 0 := calculate_theta_eq_zero_of_ratio_nonpos
    (div_nonpos_iff.mpr (Or.inr ⟨sub_nonpos.mpr h2.le, w2.le⟩))
  have t3 : calculate_theta hw bh ww = 0 := calculate_theta_eq_zero_of_ratio_nonpos
    (div_nonpos_iff.mpr (Or.inr ⟨sub_nonpos.mpr h3.le, w3.le⟩))
  refine ⟨t1, t2, t3, ?_⟩
  rw [t1, t2, t3]
  norm_num [sunhours_percent]

/-- Witness for C8: all opposing heights 5 against building height 12, street
widths 10, 12, 12. -/
theorem scenario_b_sunhours_witness :
    (5:ℝ) < 12 ∧ (5:ℝ) < 12 ∧ (5:ℝ) < 12 ∧ (0:ℝ) < 10 ∧ (0:ℝ) < 12 ∧
      (0:ℝ) < 12 ∧
      (calculate_theta 5 12 10 = 0 ∧ calculate_theta 5 12 12 = 0 ∧
        calculate_theta 5 12 12 = 0 ∧
        sunhours_percent (calculate_theta 5 12 10) (calculate_theta 5 12 12)
          (calculate_theta 5 12 12) = 91.573) :=
  ⟨by norm_num, by norm_num, by norm_num, by norm_num, by norm_num, by norm_num,
    scenario_b_sunhours 12 5 5 5 10 12 12 (by norm_num) (by norm_num)
      (by norm_num) (by norm_num) (by norm_num) (by norm_num)⟩

/-- C9: with the main building footprint centered at the origin and obsDepth
fixed at 10, the three obstruction blocks are placed exactly as the spec
states — South at (0, -(length/2 + streetWidthSouth + obsDepth/2), 0) with
footprint width x obsDepth and height opposingHeightSouth; East at
(width/2 + streetWidthEast + obsDepth/2, 0, 0) with footprint
obsDepth x length and height opposingHeightEast; West mirrored — each block
using the same street width variable as its obstruction-angle computation. -/
theorem obstruction_placement_matches_spec (length width building_height
    w_south w_east w_west h_south h_east h_west : ℝ) :
    main_bldg width length building_height
        = ⟨0, 0, 0, width, length, building_height⟩ ∧
      south_bldg length width w_south h_south
        = spec_southBlock length width w_south h_south ∧
      east_bldg length width w_east h_east
        = spec_eastBlock length width w_east h_east ∧
      west_bldg length width w_west h_west
        = spec_westBlock length width w_west h_west := by
  refine ⟨rfl, ?_, ?_, ?_⟩ <;>
    simp [south_bldg, east_bldg, west_bldg, make_cube_trace, spec_southBlock,
      spec_eastBlock, spec_westBlock, y_south_pos, x_east_pos, x_west_pos,
      obs_depth, CubeTrace.mk.injEq] <;>
    norm_num

/-- C10: `calculate_theta` performs no sign check on the street width.  For a
negative street width the divisor flips the sign of the raw angle before the
clamp: a taller obstruction yields 0 (no shading reported despite real
shading) and a shorter obstruction yields a strictly positive angle; and the
street-width input fields impose no minimum, so any negative street width is
accepted at the input boundary. -/
theorem negative_street_width_behavior (oh bh sw : ℝ) (wq : ℚ)
    (hsw : sw < 0) (hwq : wq < 0) :
    (bh < oh → calculate_theta oh bh sw = 0) ∧
      (oh < bh → 0 < calculate_theta oh bh sw) ∧
      input_accepted 20 15 4 12 15 wq 10 12 10 12 = true := by
  refine ⟨?_, ?_, ?_⟩
  · intro h
    exact calculate_theta_eq_zero_of_ratio_nonpos
      (div_nonpos_iff.mpr (Or.inl ⟨(sub_pos.mpr h).le, hsw.le⟩))
  · intro h
    rw [calculate_theta_eq_max]
    have hpos : 0 < degrees (Real.arctan ((oh - bh) / sw)) := by
      have hd := degrees_lt_degrees (arctan_pos_of
        (div_pos_iff.mpr (Or.inr ⟨sub_neg.mpr h, hsw⟩)))
      rwa [degrees_zero] at hd
    exact lt_max_iff.mpr (Or.inr hpos)
  · norm_num [input_accepted]

/-- Witness for C10 at opposing height 15, building height 12, street width
-10, and a negative street-width field value -5. -/
theorem negative_street_width_behavior_witness :
    (-10:ℝ) < 0 ∧ (-5:ℚ) < 0 ∧
      (((12:ℝ) < 15 → calculate_theta 15 12 (-10) = 0) ∧
        ((15:ℝ) < 12 → 0 < calculate_theta 15 12 (-10)) ∧
        input_accepted 20 15 4 12 15 (-5) 10 12 10 12 = true) :=
  ⟨by norm_num, by norm_num,
    negative_street_width_behavior 15 12 (-10) (-5) (by norm_num) (by norm_num)⟩

end

end PVCalc
